import Mathlib

/-!
Shallow embedding of the `mouseless` program (repository `willzeng274/mouseless`,
files `src/main.rs` and `src/grid.rs`) together with theorems checking the
natural-language specification against it.

Modelling conventions:
* Rust `f32`/`f64` geometry is modelled with `ℚ` (the claims under scrutiny only
  depend on cell counts, list lengths and exact label/point bookkeeping, not on
  floating-point rounding);
* `std::time::Instant` timestamps are modelled as `ℕ` milliseconds;
* Rust `String` values holding ASCII grid labels and the key-input buffer are
  modelled as `List Char`;
* the shared atomics (`is_visible`, `hide_requested`, `lshift_key_is_pressed`)
  are carried in the state records, with writes performed by the other thread
  modelled as per-tick inputs;
* fallible OS calls (`Mouse::move_to`, viewport rect queries, `CGEventSource`
  creation, mouse-event creation) are modelled by boolean/optional inputs of the
  tick, and the synthetic events actually posted are collected as outputs.
-/

set_option maxHeartbeats 2000000
set_option maxRecDepth 100000

namespace Mouseless

/-- `const RCMD_TAP_DURATION_MS: u128 = 200;` (src/main.rs). -/
def RCMD_TAP_DURATION_MS : ℕ := 200

/-- `const RIGHT_COMMAND_KEY_CODE: i64 = 54;` (src/main.rs). -/
def RIGHT_COMMAND_KEY_CODE : ℤ := 54

/-- `const LEFT_SHIFT_KEY_CODE: i64 = 56;` (src/main.rs). -/
def LEFT_SHIFT_KEY_CODE : ℤ := 56

/-- `const ESCAPE_KEY_CODE: i64 = 53;` (src/main.rs). -/
def ESCAPE_KEY_CODE : ℤ := 53

/-- `const MAIN_GRID_COLS: usize = 12;` (src/main.rs). -/
def MAIN_GRID_COLS : ℕ := 12

/-- `const MAIN_GRID_ROWS: usize = 12;` (src/main.rs). -/
def MAIN_GRID_ROWS : ℕ := 12

/-- `const SUB_GRID_COLS: usize = 5;` (src/main.rs). -/
def SUB_GRID_COLS : ℕ := 5

/-- `const SUB_GRID_ROWS: usize = 5;` (src/main.rs). -/
def SUB_GRID_ROWS : ℕ := 5

/-- A screen point (`egui::Pos2`, here with rational coordinates). -/
structure Pos where
  x : ℚ
  y : ℚ
deriving DecidableEq

/-- An axis-aligned rectangle (`egui::Rect`), stored as min-corner plus size,
matching `egui::Rect::from_min_size`. -/
structure Rect where
  x : ℚ
  y : ℚ
  w : ℚ
  h : ℚ
deriving DecidableEq

/-- `egui::Rect::center()`. -/
def Rect.center (r : Rect) : Pos := ⟨r.x + r.w / 2, r.y + r.h / 2⟩

/-- `enum DisplayMode` (src/main.rs). -/
inductive DisplayMode where
  | MainGrid
  | SubGrid
deriving DecidableEq

/-- `enum GlobalEvent` (src/main.rs): the channel message from the gesture
detector to the overlay navigator. -/
inductive GlobalEvent where
  | ShowGrid (cursorPos : Option Pos)
deriving DecidableEq

/-- The local (egui) keyboard keys the navigator reacts to: the 26 letter keys
(`egui::Key::A ..= Z`), `egui::Key::Space`, and anything else. -/
inductive Key where
  | letter (i : Fin 26)
  | space
  | other
deriving DecidableEq

/-- `fn key_to_char` (src/main.rs): maps the letter keys to uppercase chars,
everything else to `None`. -/
def key_to_char : Key → Option Char
  | .letter i => some (Char.ofNat (65 + i.val))
  | _ => none

/-- `first_chars` array of `generate_main_grid_layout` (src/main.rs and
src/grid.rs). -/
def first_chars : List Char :=
  ['A', 'S', 'D', 'F', 'G', 'H', 'J', 'K', 'L', 'Q', 'W', 'E', 'R',
   'T', 'Y', 'U', 'I', 'O', 'P', 'Z', 'X', 'C', 'V', 'B', 'N', 'M']

/-- `second_chars` array of `generate_main_grid_layout` (src/main.rs and
src/grid.rs). -/
def second_chars : List Char :=
  ['H', 'J', 'K', 'L', 'Q', 'W', 'E', 'R', 'T', 'Y', 'A', 'S', 'D',
   'F', 'G', 'U', 'I', 'O', 'P', 'Z', 'X', 'C', 'V', 'B', 'N', 'M']

/-- The label pushed for grid position `(r, c)` in `generate_main_grid_layout`:
the in-alphabet two-character label when `idx` is within both alphabets,
otherwise the ASCII fallback `(65 + idx % 26, 65 + (idx / 26) % 26)`. -/
def labelFor (numCols r c : ℕ) : List Char :=
  let idx := r * numCols + c
  if idx < first_chars.length ∧ idx < second_chars.length then
    [first_chars.getD (r % first_chars.length) 'A',
     second_chars.getD (c % second_chars.length) 'A']
  else
    [Char.ofNat (65 + idx % 26), Char.ofNat (65 + (idx / 26) % 26)]

/-- One iteration of the label loop of `generate_main_grid_layout`: push the
label for `(r, c)` guarded by `labels.len() < num_rows * num_cols`. -/
def pushLabel (numCols numRows : ℕ) (labels : List (List Char)) (r c : ℕ) :
    List (List Char) :=
  if labels.length < numRows * numCols then labels ++ [labelFor numCols r c]
  else labels

/-- The label list built by `generate_main_grid_layout` (nested `for r`/`for c`
loops, then `labels.truncate(num_rows * num_cols)`). -/
def mainGridLabels (numCols numRows : ℕ) : List (List Char) :=
  (((List.range numRows).foldl (fun ls r =>
      (List.range numCols).foldl (fun ls c => pushLabel numCols numRows ls r c) ls)
    []).take (numRows * numCols))

/-- The rect list built by both `generate_main_grid_layout` and
`generate_sub_grid_layout`: row-major equally sized cells when the outer
rectangle has width and height above the degeneracy threshold `1.0`, otherwise
an empty list. -/
def gridCellRects (outer : Rect) (numCols numRows : ℕ) : List Rect :=
  if 1 < outer.w ∧ 1 < outer.h then
    (List.range numRows).flatMap (fun (i : ℕ) =>
      (List.range numCols).map (fun (j : ℕ) =>
        ⟨outer.x + (j : ℚ) * (outer.w / (numCols : ℚ)),
         outer.y + (i : ℚ) * (outer.h / (numRows : ℚ)),
         outer.w / (numCols : ℚ), outer.h / (numRows : ℚ)⟩))
  else []

/-- `fn generate_main_grid_layout` (identical in src/main.rs
`MouselessApp::generate_main_grid_layout` and src/grid.rs). -/
def generate_main_grid_layout (numCols numRows : ℕ) (screenRect : Rect) :
    List (List Char) × List Rect :=
  (mainGridLabels numCols numRows, gridCellRects screenRect numCols numRows)

/-- `sub_grid_chars` array of `generate_sub_grid_layout`. -/
def sub_grid_chars : List Char :=
  ['A', 'B', 'C', 'D', 'E', 'F', 'G', 'H', 'I', 'J', 'K', 'L', 'M',
   'N', 'O', 'P', 'Q', 'R', 'S', 'T', 'U', 'V', 'W', 'X', 'Y', 'Z']

/-- The label list built by `generate_sub_grid_layout`: one single-character
label per index `i < sub_grid_chars.len()`, then `truncate(total_cells)`. -/
def subGridLabels (numCols numRows : ℕ) : List (List Char) :=
  (((List.range (numCols * numRows)).foldl (fun ls i =>
      if i < sub_grid_chars.length then ls ++ [[sub_grid_chars.getD i 'A']] else ls)
    []).take (numCols * numRows))

/-- `fn generate_sub_grid_layout` (identical in src/main.rs
`MouselessApp::generate_sub_grid_layout` and src/grid.rs). -/
def generate_sub_grid_layout (mainCellRect : Rect) (numCols numRows : ℕ) :
    List (List Char) × List Rect :=
  (subGridLabels numCols numRows, gridCellRects mainCellRect numCols numRows)

/-- The state of `MouselessApp` together with the shared atomics of
`EframeControl` (`is_visible`, `hide_requested`).
`last_layout_screen_rect = none` models the `egui::Rect::NOTHING` sentinel. -/
structure AppState where
  display_mode : DisplayMode
  key_input_buffer : List Char
  selected_main_cell_index : Option ℕ
  main_grid_labels : List (List Char)
  main_grid_rects : List Rect
  sub_grid_labels : List (List Char)
  sub_grid_rects : List Rect
  last_layout_screen_rect : Option Rect
  is_visible : Bool
  hide_requested : Bool
  is_hiding_to_perform_click : Bool
  hide_initiated_at : Option ℕ
  pending_click_pos_after_hide : Option Pos
deriving DecidableEq

/-- `CGMouseButton` choices used by the deferred click. -/
inductive MouseButton where
  | left
  | right
deriving DecidableEq

/-- Observable OS-level side effects of a tick: the pointer move performed in
`perform_mouse_click`, and the synthetic button-down/button-up events posted in
the deferred-click branch of `update`. -/
inductive OutEvent where
  | moveTo (p : Pos)
  | clickDown (b : MouseButton) (p : Pos)
  | clickUp (b : MouseButton) (p : Pos)
deriving DecidableEq

/-- Environment of one `MouselessApp::update` tick: the wall clock, the result
of `event_rx.try_recv()`, whether the listener thread stored `hide_requested`
before this tick, the egui content size, the viewport outer rect, success of
the fallible OS calls, the sampled `lshift_key_is_pressed` atomic, and the
local key-press events of this tick. -/
structure TickInput where
  now : ℕ
  recv : Option GlobalEvent
  ext_hide : Bool
  screen_size : Pos
  outer_rect : Option Rect
  move_ok : Bool
  source_ok : Bool
  down_ok : Bool
  up_ok : Bool
  lshift : Bool
  key_events : List Key

/-- `MouselessApp::new` (src/main.rs): the initial app state, with
`EframeControl::default()` (both atomics false). -/
def initialState (initialSize : Pos) : AppState where
  display_mode := .MainGrid
  key_input_buffer := []
  selected_main_cell_index := none
  main_grid_labels :=
    (generate_main_grid_layout MAIN_GRID_COLS MAIN_GRID_ROWS
      ⟨0, 0, initialSize.x, initialSize.y⟩).1
  main_grid_rects := []
  sub_grid_labels := []
  sub_grid_rects := []
  last_layout_screen_rect := none
  is_visible := false
  hide_requested := false
  is_hiding_to_perform_click := false
  hide_initiated_at := none
  pending_click_pos_after_hide := none

/-- `MouselessApp::perform_mouse_click` (src/main.rs lines 219-244): convert
the window-relative point to a global point, move the OS pointer (failure
clears the pending click), queue the click position, and request a hide. -/
def perform_mouse_click (s : AppState) (inp : TickInput)
    (windowRelativePoint : Pos) : AppState × List OutEvent :=
  match inp.outer_rect with
  | some wr =>
    let globalClickPoint : Pos :=
      ⟨wr.x + windowRelativePoint.x, wr.y + windowRelativePoint.y⟩
    if inp.move_ok then
      ({ s with pending_click_pos_after_hide := some globalClickPoint,
                hide_requested := true }, [.moveTo globalClickPoint])
    else
      ({ s with hide_requested := true,
                pending_click_pos_after_hide := none }, [])
  | none =>
    ({ s with pending_click_pos_after_hide := none, hide_requested := true }, [])

/-- The `event_rx.try_recv()` handling at the top of `update` (lines 249-266):
a `ShowGrid` message while hidden shows the window and resets the navigation
state (clearing the main-grid rects so the layout is recomputed). -/
def recvPhase (s : AppState) : Option GlobalEvent → AppState
  | some (.ShowGrid _) =>
    if s.is_visible = false then
      { s with is_visible := true, hide_requested := false,
               key_input_buffer := [], selected_main_cell_index := none,
               display_mode := .MainGrid, main_grid_rects := [] }
    else s
  | none => s

/-- The visible branch of the `hide_req` handling (lines 269-284): hide the
window, reset navigation state, and start the deferred-click wait when a click
is pending. The function ends the tick (`return`). -/
def hideBranch (s : AppState) (now : ℕ) : AppState :=
  let s := { s with is_visible := false, hide_requested := false,
                    key_input_buffer := [], selected_main_cell_index := none,
                    display_mode := .MainGrid }
  let hidingFlag := s.pending_click_pos_after_hide.isSome
  { s with is_hiding_to_perform_click := hidingFlag,
           hide_initiated_at := if hidingFlag then some now else s.hide_initiated_at }

/-- The already-hidden branch of the `hide_req` handling (lines 285-293):
clear the request and any stale pending-click state. -/
def clearStalePhase (s : AppState) : AppState :=
  if s.hide_requested then
    { s with hide_requested := false, pending_click_pos_after_hide := none,
             is_hiding_to_perform_click := false, hide_initiated_at := none }
  else s

/-- The deferred-click block of `update` (lines 296-377): once
`is_hiding_to_perform_click` is set and at least 150 ms have elapsed since
`hide_initiated_at`, post the button-down/button-up pair (button chosen from
the `lshift_key_is_pressed` atomic read at this moment; each half posted only
if the event source and that event's creation succeed) and reset the state. -/
def clickPhase (s : AppState) (inp : TickInput) : AppState × List OutEvent :=
  if s.is_hiding_to_perform_click then
    match s.hide_initiated_at with
    | some t =>
      if t + 150 ≤ inp.now then
        let out : List OutEvent :=
          match s.pending_click_pos_after_hide with
          | some p =>
            let button := if inp.lshift then MouseButton.right else MouseButton.left
            (if inp.source_ok ∧ inp.down_ok then [OutEvent.clickDown button p] else []) ++
            (if inp.source_ok ∧ inp.up_ok then [OutEvent.clickUp button p] else [])
          | none => []
        ({ s with is_hiding_to_perform_click := false, hide_initiated_at := none,
                  pending_click_pos_after_hide := none, key_input_buffer := [],
                  selected_main_cell_index := none, display_mode := .MainGrid,
                  hide_requested := false }, out)
      else (s, [])
    | none =>
      ({ s with is_hiding_to_perform_click := false,
                pending_click_pos_after_hide := none, hide_requested := false }, [])
  else (s, [])

/-- The relayout block of `update` (lines 418-436): recompute the main grid
when the rects are empty or the content rect changed; in sub-grid mode also
recompute the sub grid, falling back to the main grid when the retained
selection index is out of range. -/
def layoutPhase (s : AppState) (inp : TickInput) : AppState :=
  let current : Rect := ⟨0, 0, inp.screen_size.x, inp.screen_size.y⟩
  if s.main_grid_rects.isEmpty ∨ s.last_layout_screen_rect ≠ some current then
    let L := generate_main_grid_layout MAIN_GRID_COLS MAIN_GRID_ROWS current
    let s := { s with main_grid_labels := L.1, main_grid_rects := L.2,
                      last_layout_screen_rect := some current }
    if s.display_mode = .SubGrid then
      match s.selected_main_cell_index with
      | some mainIdx =>
        if mainIdx < s.main_grid_rects.length then
          let SG := generate_sub_grid_layout
            (s.main_grid_rects.getD mainIdx ⟨0, 0, 0, 0⟩) SUB_GRID_COLS SUB_GRID_ROWS
          { s with sub_grid_labels := SG.1, sub_grid_rects := SG.2 }
        else { s with display_mode := .MainGrid }
      | none => { s with display_mode := .MainGrid }
    else s
  else s

/-- One key event of the main-grid input loop (lines 438-461): push the typed
character; on a two-character buffer, look up the label (`position` returns the
first matching index), enter sub-grid mode on a match, otherwise clear the
buffer. -/
def mainKeyStep (s : AppState) (k : Key) : AppState :=
  match key_to_char k with
  | some c =>
    let buf := s.key_input_buffer ++ [c]
    if buf.length = 2 then
      match s.main_grid_labels.findIdx? (· == buf) with
      | some index =>
        let s := { s with selected_main_cell_index := some index,
                          display_mode := .SubGrid, key_input_buffer := [] }
        if index < s.main_grid_rects.length then
          let SG := generate_sub_grid_layout
            (s.main_grid_rects.getD index ⟨0, 0, 0, 0⟩) SUB_GRID_COLS SUB_GRID_ROWS
          { s with sub_grid_labels := SG.1, sub_grid_rects := SG.2 }
        else { s with display_mode := .MainGrid }
      | none => { s with key_input_buffer := [] }
    else { s with key_input_buffer := buf }
  | none => s

/-- The sub-grid input loop (lines 462-484): Space clicks the selected main
cell's center; a character matching a sub-grid label clicks that sub-cell's
center; either click breaks out of the loop. -/
def subKeyLoop (s : AppState) (inp : TickInput) : List Key → AppState × List OutEvent
  | [] => (s, [])
  | k :: rest =>
    let spaceTarget : Option Pos :=
      if k = Key.space then
        match s.selected_main_cell_index with
        | some mainIdx =>
          if mainIdx < s.main_grid_rects.length then
            some (s.main_grid_rects.getD mainIdx ⟨0, 0, 0, 0⟩).center
          else none
        | none => none
      else none
    match spaceTarget with
    | some p => perform_mouse_click s inp p
    | none =>
      match key_to_char k with
      | some c =>
        match s.sub_grid_labels.findIdx? (· == [c]) with
        | some subIdx =>
          if subIdx < s.sub_grid_rects.length then
            perform_mouse_click s inp
              ((s.sub_grid_rects.getD subIdx ⟨0, 0, 0, 0⟩).center)
          else subKeyLoop s inp rest
        | none => subKeyLoop s inp rest
      | none => subKeyLoop s inp rest

/-- The per-mode key handling of `update`: the branch on `display_mode` is
chosen once, before the event loop runs (as in the source). -/
def keyPhase (s : AppState) (inp : TickInput) : AppState × List OutEvent :=
  match s.display_mode with
  | .MainGrid => (inp.key_events.foldl mainKeyStep s, [])
  | .SubGrid => subKeyLoop s inp inp.key_events

/-- `MouselessApp::update` (src/main.rs lines 248-535), one render tick:
channel poll, hide handling (with early return), deferred-click servicing,
early return while hidden and not waiting for a click, relayout, and local key
handling. A `hide_requested` store performed by the listener thread before the
tick is merged in first. -/
def update (s0 : AppState) (inp : TickInput) : AppState × List OutEvent :=
  let s1 := { s0 with hide_requested := s0.hide_requested || inp.ext_hide }
  let s2 := recvPhase s1 inp.recv
  if s2.hide_requested = true ∧ s2.is_visible = true then
    (hideBranch s2 inp.now, [])
  else
    let s3 := clearStalePhase s2
    let r4 := clickPhase s3 inp
    if r4.1.is_visible = false ∧ r4.1.is_hiding_to_perform_click = false then r4
    else
      let s5 := layoutPhase r4.1 inp
      let r6 := keyPhase s5 inp
      (r6.1, r4.2 ++ r6.2)

/-- Run a sequence of ticks from a state, keeping the final state. -/
def runTrace (s : AppState) (inputs : List TickInput) : AppState :=
  inputs.foldl (fun s i => (update s i).1) s

/-- Whether an output event is a synthetic click half. -/
def isClick : OutEvent → Bool
  | .clickDown _ _ => true
  | .clickUp _ _ => true
  | _ => false

/-- The abstract navigator state of the specification, read off the app state:
the deferred-click wait (`is_hiding_to_perform_click`) is `PendingClick`;
otherwise hidden is `Idle` and the visible modes map to the two active
states. -/
inductive NavState where
  | Idle
  | MainGridActive
  | SubGridActive
  | PendingClick
deriving DecidableEq

/-- Abstraction from the concrete app state to the specification's navigator
state machine. -/
def navStateOf (s : AppState) : NavState :=
  if s.is_hiding_to_perform_click then .PendingClick
  else if s.is_visible = false then .Idle
  else match s.display_mode with
    | .MainGrid => .MainGridActive
    | .SubGrid => .SubGridActive

/-- States reachable by the navigator's per-tick step function from an initial
state, under arbitrary tick environments. -/
inductive Reachable : AppState → Prop where
  | init (sz : Pos) : Reachable (initialState sz)
  | step (s : AppState) (inp : TickInput) : Reachable s → Reachable (update s inp).1

/-- `fn is_modifier_key_code` (src/main.rs line 651). -/
def is_modifier_key_code (keyCode : ℤ) : Bool :=
  keyCode == 54 || keyCode == 55 || keyCode == 56 || keyCode == 57 ||
  keyCode == 58 || keyCode == 59 || keyCode == 60 || keyCode == 61 ||
  keyCode == 62 || keyCode == 63

/-- Hardware events delivered to the event-tap callback; `flagsChanged` carries
the key code and whether the Command/Shift bits are set in the event flags. -/
inductive TapEvent where
  | keyDown (keyCode : ℤ)
  | keyUp (keyCode : ℤ)
  | flagsChanged (keyCode : ℤ) (cmdFlag : Bool) (shiftFlag : Bool)
deriving DecidableEq

/-- State visible to the gesture-detector callback: its thread-local
`rcmd_press_time` plus the shared atomics it reads or writes. -/
structure DetState where
  rcmd_press_time : Option ℕ
  app_is_visible : Bool
  hide_requested : Bool
  lshift_key_is_pressed : Bool
deriving DecidableEq

/-- Result of one callback invocation: channel messages sent, and whether the
event was passed through (`Some(event)`) or swallowed (`None`). -/
structure DetOutput where
  sent : List GlobalEvent
  passEvent : Bool
deriving DecidableEq

/-- Whether an event is a key-down of the Escape key (the swallow test at the
top of the callback). -/
def isEscapeKeyDown : TapEvent → Bool
  | .keyDown kc => kc == ESCAPE_KEY_CODE
  | _ => false

/-- The event-tap callback closure of `global_event_listener_thread`
(src/main.rs lines 549-618): Escape-while-visible requests a hide and is
swallowed; a right-Command flag cycle within the tap window while hidden sends
`ShowGrid`; left-Shift flag changes track the modifier atomic; any other
flag-change, or a key-down of a non-modifier key, cancels a pending press. -/
def tapCallback (s : DetState) (now : ℕ) (cursorPos : Option Pos)
    (ev : TapEvent) : DetState × DetOutput :=
  if s.app_is_visible = true ∧ isEscapeKeyDown ev = true then
    ({ s with hide_requested := true }, ⟨[], false⟩)
  else
    match ev with
    | .flagsChanged keyCode cmdFlag _shiftFlag =>
      if keyCode = RIGHT_COMMAND_KEY_CODE then
        if cmdFlag then
          if s.rcmd_press_time = none then
            ({ s with rcmd_press_time := some now }, ⟨[], true⟩)
          else (s, ⟨[], true⟩)
        else
          match s.rcmd_press_time with
          | some pressTime =>
            let s' := { s with rcmd_press_time := none }
            if now - pressTime < RCMD_TAP_DURATION_MS then
              if s'.app_is_visible = false then
                (s', ⟨[GlobalEvent.ShowGrid cursorPos], true⟩)
              else (s', ⟨[], true⟩)
            else (s', ⟨[], true⟩)
          | none => (s, ⟨[], true⟩)
      else if keyCode = LEFT_SHIFT_KEY_CODE then
        if _shiftFlag then
          if s.lshift_key_is_pressed = false then
            ({ s with lshift_key_is_pressed := true }, ⟨[], true⟩)
          else (s, ⟨[], true⟩)
        else
          if s.lshift_key_is_pressed = true then
            ({ s with lshift_key_is_pressed := false }, ⟨[], true⟩)
          else (s, ⟨[], true⟩)
      else
        if s.rcmd_press_time.isSome then
          ({ s with rcmd_press_time := none }, ⟨[], true⟩)
        else (s, ⟨[], true⟩)
    | .keyDown keyCode =>
      if s.rcmd_press_time.isSome = true ∧ is_modifier_key_code keyCode = false ∧
          keyCode ≠ RIGHT_COMMAND_KEY_CODE then
        ({ s with rcmd_press_time := none }, ⟨[], true⟩)
      else (s, ⟨[], true⟩)
    | .keyUp _ => (s, ⟨[], true⟩)

/-- A baseline tick environment: nothing received, no external hide request,
a 120×120 content rect at the screen origin, all OS calls succeeding, the
left-Shift modifier not held, and no key events. -/
def baseInput : TickInput where
  now := 0
  recv := none
  ext_hide := false
  screen_size := ⟨120, 120⟩
  outer_rect := some ⟨0, 0, 120, 120⟩
  move_ok := true
  source_ok := true
  down_ok := true
  up_ok := true
  lshift := false
  key_events := []

/-- Tick 1 of the concrete scenario: the detector's `ShowGrid` arrives. -/
def cexI1 : TickInput := { baseInput with now := 0, recv := some (.ShowGrid none) }

/-- Tick 2: the user types `A` `H`, the label of main cell 0. -/
def cexI2 : TickInput :=
  { baseInput with now := 10, key_events := [Key.letter 0, Key.letter 7] }

/-- Tick 3: the user presses Space, confirming the selected main cell and
scheduling a click at its center. -/
def cexI3 : TickInput := { baseInput with now := 20, key_events := [Key.space] }

/-- Tick 4: the requested hide is processed and the deferred-click wait starts. -/
def cexI4 : TickInput := { baseInput with now := 30 }

/-- Tick 5: a second `ShowGrid` arrives 10 ms into the deferred-click wait. -/
def cexI5 : TickInput := { baseInput with now := 40, recv := some (.ShowGrid none) }

/-- Tick 6: 170 ms after the hide was initiated. -/
def cexI6 : TickInput := { baseInput with now := 200 }

/-- The buttons of the synthetic click events in an output list, in order. -/
def buttonsOf : List OutEvent → List MouseButton
  | [] => []
  | .clickDown b _ :: rest => b :: buttonsOf rest
  | .clickUp b _ :: rest => b :: buttonsOf rest
  | .moveTo _ :: rest => buttonsOf rest

/-- The label list of the configured 12×12 main grid. -/
def mainLabels144 : List (List Char) := mainGridLabels MAIN_GRID_COLS MAIN_GRID_ROWS

/-- The index `position` returns when the label of cell `k` is typed on the
configured main grid: the first index carrying that label. -/
def firstMatchIdx (k : ℕ) : ℕ :=
  (mainLabels144.findIdx? (· == mainLabels144.getD k [])).getD 144

/-- The letter key producing a given uppercase character. -/
def keyOfChar (c : Char) : Key :=
  if h : c.toNat - 65 < 26 then .letter ⟨c.toNat - 65, h⟩ else .other

/-- The two key presses that type the label of main cell `k`. -/
def labelKeys (k : ℕ) : List Key := (mainLabels144.getD k []).map keyOfChar

/-- Context in which the main-grid key handling of `update` is exercised in
isolation: the overlay is visible in main-grid mode with an empty buffer, the
layout for the current content rect has already been computed, no channel
message or external hide request arrives, and the content rect is
non-degenerate. -/
def mainReadyState (s : AppState) (inp : TickInput) : Prop :=
  s.display_mode = .MainGrid ∧ s.key_input_buffer = [] ∧
  s.is_visible = true ∧ s.hide_requested = false ∧
  s.is_hiding_to_perform_click = false ∧
  inp.recv = none ∧ inp.ext_hide = false ∧
  1 < inp.screen_size.x ∧ 1 < inp.screen_size.y ∧
  s.main_grid_labels = mainLabels144 ∧
  s.main_grid_rects =
    gridCellRects ⟨0, 0, inp.screen_size.x, inp.screen_size.y⟩ MAIN_GRID_COLS MAIN_GRID_ROWS ∧
  s.last_layout_screen_rect = some ⟨0, 0, inp.screen_size.x, inp.screen_size.y⟩

/-- A concrete state satisfying `mainReadyState` for the 120×120 content rect. -/
def readyS : AppState :=
  { initialState ⟨120, 120⟩ with
      is_visible := true,
      main_grid_labels := mainLabels144,
      main_grid_rects := gridCellRects ⟨0, 0, 120, 120⟩ MAIN_GRID_COLS MAIN_GRID_ROWS,
      last_layout_screen_rect := some ⟨0, 0, 120, 120⟩ }

/-- The 144 labels of the configured 12×12 main grid, tabulated (proved equal
to `mainGridLabels MAIN_GRID_COLS MAIN_GRID_ROWS` below). -/
def labelTable : List (List Char) :=
  [['A', 'H'], ['A', 'J'], ['A', 'K'], ['A', 'L'], ['A', 'Q'], ['A', 'W'],
   ['A', 'E'], ['A', 'R'], ['A', 'T'], ['A', 'Y'], ['A', 'A'], ['A', 'S'],
   ['S', 'H'], ['S', 'J'], ['S', 'K'], ['S', 'L'], ['S', 'Q'], ['S', 'W'],
   ['S', 'E'], ['S', 'R'], ['S', 'T'], ['S', 'Y'], ['S', 'A'], ['S', 'S'],
   ['D', 'H'], ['D', 'J'], ['A', 'B'], ['B', 'B'], ['C', 'B'], ['D', 'B'],
   ['E', 'B'], ['F', 'B'], ['G', 'B'], ['H', 'B'], ['I', 'B'], ['J', 'B'],
   ['K', 'B'], ['L', 'B'], ['M', 'B'], ['N', 'B'], ['O', 'B'], ['P', 'B'],
   ['Q', 'B'], ['R', 'B'], ['S', 'B'], ['T', 'B'], ['U', 'B'], ['V', 'B'],
   ['W', 'B'], ['X', 'B'], ['Y', 'B'], ['Z', 'B'], ['A', 'C'], ['B', 'C'],
   ['C', 'C'], ['D', 'C'], ['E', 'C'], ['F', 'C'], ['G', 'C'], ['H', 'C'],
   ['I', 'C'], ['J', 'C'], ['K', 'C'], ['L', 'C'], ['M', 'C'], ['N', 'C'],
   ['O', 'C'], ['P', 'C'], ['Q', 'C'], ['R', 'C'], ['S', 'C'], ['T', 'C'],
   ['U', 'C'], ['V', 'C'], ['W', 'C'], ['X', 'C'], ['Y', 'C'], ['Z', 'C'],
   ['A', 'D'], ['B', 'D'], ['C', 'D'], ['D', 'D'], ['E', 'D'], ['F', 'D'],
   ['G', 'D'], ['H', 'D'], ['I', 'D'], ['J', 'D'], ['K', 'D'], ['L', 'D'],
   ['M', 'D'], ['N', 'D'], ['O', 'D'], ['P', 'D'], ['Q', 'D'], ['R', 'D'],
   ['S', 'D'], ['T', 'D'], ['U', 'D'], ['V', 'D'], ['W', 'D'], ['X', 'D'],
   ['Y', 'D'], ['Z', 'D'], ['A', 'E'], ['B', 'E'], ['C', 'E'], ['D', 'E'],
   ['E', 'E'], ['F', 'E'], ['G', 'E'], ['H', 'E'], ['I', 'E'], ['J', 'E'],
   ['K', 'E'], ['L', 'E'], ['M', 'E'], ['N', 'E'], ['O', 'E'], ['P', 'E'],
   ['Q', 'E'], ['R', 'E'], ['S', 'E'], ['T', 'E'], ['U', 'E'], ['V', 'E'],
   ['W', 'E'], ['X', 'E'], ['Y', 'E'], ['Z', 'E'], ['A', 'F'], ['B', 'F'],
   ['C', 'F'], ['D', 'F'], ['E', 'F'], ['F', 'F'], ['G', 'F'], ['H', 'F'],
   ['I', 'F'], ['J', 'F'], ['K', 'F'], ['L', 'F'], ['M', 'F'], ['N', 'F']]

end Mouseless

namespace Mouseless

/-! ### Lemmas about the grid-layout functions -/

theorem first_chars_length : first_chars.length = 26 := rfl

theorem second_chars_length : second_chars.length = 26 := rfl

theorem sub_grid_chars_length : sub_grid_chars.length = 26 := rfl

theorem foldl_pushLabel_cols (C R r : ℕ) (cs : List ℕ) :
    ∀ acc : List (List Char), acc.length + cs.length ≤ R * C →
      cs.foldl (fun ls c => pushLabel C R ls r c) acc = acc ++ cs.map (labelFor C r) := by
  induction cs with
  | nil => intro acc _; simp
  | cons c cs ih =>
    intro acc h
    simp only [List.length_cons] at h
    have hguard : acc.length < R * C := by omega
    have hstep : pushLabel C R acc r c = acc ++ [labelFor C r c] := by
      simp [pushLabel, hguard]
    have h' : (acc ++ [labelFor C r c]).length + cs.length ≤ R * C := by
      simp only [List.length_append, List.length_cons, List.length_nil]
      omega
    rw [List.foldl_cons, hstep, ih (acc ++ [labelFor C r c]) h']
    simp

theorem foldl_pushLabel_rows (C R : ℕ) (rs : List ℕ) :
    ∀ acc : List (List Char), acc.length + rs.length * C ≤ R * C →
      rs.foldl (fun ls r =>
          (List.range C).foldl (fun ls c => pushLabel C R ls r c) ls) acc
        = acc ++ rs.flatMap (fun r => (List.range C).map (labelFor C r)) := by
  induction rs with
  | nil => intro acc _; simp
  | cons r rs ih =>
    intro acc h
    have h1 : acc.length + (List.range C).length ≤ R * C := by
      simp only [List.length_range, List.length_cons, Nat.succ_mul] at *
      omega
    rw [List.foldl_cons, foldl_pushLabel_cols C R r (List.range C) acc h1,
        ih (acc ++ (List.range C).map (labelFor C r)) (by
          simp only [List.length_append, List.length_map, List.length_range,
            List.length_cons, Nat.succ_mul] at *
          omega)]
    simp

theorem length_flatMap_map {α β γ : Type} (l : List α) (m : List γ) (g : α → γ → β) :
    (l.flatMap (fun i => m.map (g i))).length = l.length * m.length := by
  induction l with
  | nil => simp
  | cons a l ih =>
    rw [List.flatMap_cons, List.length_append, List.length_map, ih,
        List.length_cons, Nat.succ_mul]
    omega

theorem flatLabels_length (C R : ℕ) :
    ((List.range R).flatMap (fun r => (List.range C).map (labelFor C r))).length = R * C := by
  rw [length_flatMap_map, List.length_range, List.length_range]

theorem mainGridLabels_eq (C R : ℕ) :
    mainGridLabels C R
      = (List.range R).flatMap (fun r => (List.range C).map (labelFor C r)) := by
  unfold mainGridLabels
  rw [foldl_pushLabel_rows C R (List.range R) [] (by simp)]
  simp only [List.nil_append]
  exact List.take_of_length_le (le_of_eq (flatLabels_length C R))

theorem mainGridLabels_length (C R : ℕ) : (mainGridLabels C R).length = R * C := by
  rw [mainGridLabels_eq]; exact flatLabels_length C R

theorem gridCellRects_length (outer : Rect) (C R : ℕ)
    (h1 : 1 < outer.w) (h2 : 1 < outer.h) :
    (gridCellRects outer C R).length = R * C := by
  unfold gridCellRects
  rw [if_pos ⟨h1, h2⟩, length_flatMap_map, List.length_range, List.length_range]

theorem flatMap_nodup {α β : Type} (l : List α) (f : α → List β) (hl : l.Nodup)
    (h1 : ∀ a ∈ l, (f a).Nodup)
    (h2 : ∀ a ∈ l, ∀ b ∈ l, a ≠ b → ∀ x ∈ f a, x ∉ f b) :
    (l.flatMap f).Nodup := by
  induction l with
  | nil => simp
  | cons a l ih =>
    rw [List.flatMap_cons, List.nodup_append]
    have hanotin : a ∉ l := (List.nodup_cons.mp hl).1
    refine ⟨h1 a (by simp), ?_, ?_⟩
    · exact ih (List.nodup_cons.mp hl).2
        (fun b hb => h1 b (List.mem_cons_of_mem a hb))
        (fun b hb b' hb' => h2 b (List.mem_cons_of_mem a hb) b' (List.mem_cons_of_mem a hb'))
    · intro x hx hx'
      obtain ⟨b, hb, hxb⟩ := List.mem_flatMap.mp hx'
      exact h2 a (by simp) b (List.mem_cons_of_mem a hb)
        (fun hab => hanotin (hab ▸ hb)) x hx hxb

theorem first_chars_getD_inj :
    ∀ r1, r1 < 26 → ∀ r2, r2 < 26 →
      first_chars.getD r1 'A' = first_chars.getD r2 'A' → r1 = r2 := by decide

theorem second_chars_getD_inj :
    ∀ c1, c1 < 26 → ∀ c2, c2 < 26 →
      second_chars.getD c1 'A' = second_chars.getD c2 'A' → c1 = c2 := by decide

theorem labelFor_small (C r c : ℕ) (h : r * C + c < 26) (hr : r < 26) (hc : c < 26) :
    labelFor C r c = [first_chars.getD r 'A', second_chars.getD c 'A'] := by
  unfold labelFor
  rw [if_pos (by rw [first_chars_length, second_chars_length]; exact ⟨h, h⟩)]
  rw [first_chars_length, second_chars_length, Nat.mod_eq_of_lt hr, Nat.mod_eq_of_lt hc]

theorem mainGridLabels_nodup (C R : ℕ) (h : C * R ≤ 26) : (mainGridLabels C R).Nodup := by
  rw [mainGridLabels_eq]
  have bounds : ∀ r c : ℕ, r < R → c < C → r * C + c < 26 ∧ r < 26 ∧ c < 26 := by
    intro r c hr hc
    have hCpos : 0 < C := by omega
    have hRpos : 0 < R := by omega
    have h1 : r * C + c < (r + 1) * C := by rw [Nat.succ_mul]; omega
    have h2 : (r + 1) * C ≤ R * C := Nat.mul_le_mul_right C hr
    have hcomm : R * C = C * R := Nat.mul_comm R C
    have hRle : R ≤ C * R := Nat.le_mul_of_pos_left R hCpos
    have hCle : C ≤ C * R := Nat.le_mul_of_pos_right C hRpos
    omega
  apply flatMap_nodup
  · exact List.nodup_range R
  · intro r hr
    have hrR := List.mem_range.mp hr
    apply List.Nodup.map_on
    · intro c1 hc1 c2 hc2 heq
      have hb1 := bounds r c1 hrR (List.mem_range.mp hc1)
      have hb2 := bounds r c2 hrR (List.mem_range.mp hc2)
      rw [labelFor_small C r c1 hb1.1 hb1.2.1 hb1.2.2,
          labelFor_small C r c2 hb2.1 hb2.2.1 hb2.2.2] at heq
      simp only [List.cons.injEq, and_true] at heq
      exact second_chars_getD_inj c1 hb1.2.2 c2 hb2.2.2 heq.2
    · exact List.nodup_range C
  · intro r1 hr1 r2 hr2 hne x hx1 hx2
    obtain ⟨c1, hc1, rfl⟩ := List.mem_map.mp hx1
    obtain ⟨c2, hc2, heq⟩ := List.mem_map.mp hx2
    have hb1 := bounds r1 c1 (List.mem_range.mp hr1) (List.mem_range.mp hc1)
    have hb2 := bounds r2 c2 (List.mem_range.mp hr2) (List.mem_range.mp hc2)
    rw [labelFor_small C r2 c2 hb2.1 hb2.2.1 hb2.2.2,
        labelFor_small C r1 c1 hb1.1 hb1.2.1 hb1.2.2] at heq
    simp only [List.cons.injEq, and_true] at heq
    exact hne ((first_chars_getD_inj r2 hb2.2.1 r1 hb1.2.1 heq.1).symm)

theorem subFold_length : ∀ n : ℕ,
    ((List.range n).foldl (fun ls i =>
        if i < sub_grid_chars.length then ls ++ [[sub_grid_chars.getD i 'A']] else ls)
      []).length = min n 26 := by
  intro n
  induction n with
  | zero => simp
  | succ n ih =>
    rw [List.range_succ, List.foldl_append]
    simp only [List.foldl_cons, List.foldl_nil]
    by_cases hn : n < 26
    · rw [if_pos (show n < sub_grid_chars.length by rw [sub_grid_chars_length]; exact hn),
          List.length_append, ih]
      simp only [List.length_cons, List.length_nil]
      omega
    · rw [if_neg (show ¬ n < sub_grid_chars.length by rw [sub_grid_chars_length]; exact hn), ih]
      omega

theorem subGridLabels_length (C R : ℕ) :
    (subGridLabels C R).length = min (C * R) 26 := by
  unfold subGridLabels
  rw [List.length_take, subFold_length]
  omega

end Mouseless

namespace Mouseless

/-! ### Preservation lemmas about the navigator phases -/

theorem recvPhase_preserves (s : AppState) (e : Option GlobalEvent) :
    (recvPhase s e).is_hiding_to_perform_click = s.is_hiding_to_perform_click ∧
    (recvPhase s e).hide_initiated_at = s.hide_initiated_at ∧
    (recvPhase s e).pending_click_pos_after_hide = s.pending_click_pos_after_hide := by
  cases e with
  | none => exact ⟨rfl, rfl, rfl⟩
  | some g =>
    cases g
    simp only [recvPhase]
    split <;> exact ⟨rfl, rfl, rfl⟩

theorem perform_pres (s : AppState) (inp : TickInput) (p : Pos) :
    (perform_mouse_click s inp p).1.is_hiding_to_perform_click
        = s.is_hiding_to_perform_click ∧
    (perform_mouse_click s inp p).1.hide_initiated_at = s.hide_initiated_at := by
  simp only [perform_mouse_click]
  repeat' split
  all_goals exact ⟨rfl, rfl⟩

theorem perform_no_click (s : AppState) (inp : TickInput) (p : Pos) :
    ((perform_mouse_click s inp p).2.any isClick) = false := by
  simp only [perform_mouse_click]
  repeat' split
  all_goals rfl

theorem mainKeyStep_pres (s : AppState) (k : Key) :
    (mainKeyStep s k).is_hiding_to_perform_click = s.is_hiding_to_perform_click ∧
    (mainKeyStep s k).hide_initiated_at = s.hide_initiated_at := by
  simp only [mainKeyStep]
  repeat' split
  all_goals exact ⟨rfl, rfl⟩

theorem foldl_mainKeyStep_pres (ks : List Key) :
    ∀ s : AppState,
      (ks.foldl mainKeyStep s).is_hiding_to_perform_click = s.is_hiding_to_perform_click ∧
      (ks.foldl mainKeyStep s).hide_initiated_at = s.hide_initiated_at := by
  induction ks with
  | nil => intro s; exact ⟨rfl, rfl⟩
  | cons k ks ih =>
    intro s
    rw [List.foldl_cons]
    obtain ⟨h1, h2⟩ := ih (mainKeyStep s k)
    obtain ⟨h3, h4⟩ := mainKeyStep_pres s k
    exact ⟨h1.trans h3, h2.trans h4⟩

theorem subKeyLoop_pres (inp : TickInput) (ks : List Key) :
    ∀ s : AppState,
      (subKeyLoop s inp ks).1.is_hiding_to_perform_click = s.is_hiding_to_perform_click ∧
      (subKeyLoop s inp ks).1.hide_initiated_at = s.hide_initiated_at := by
  induction ks with
  | nil => intro s; exact ⟨rfl, rfl⟩
  | cons k rest ih =>
    intro s
    simp only [subKeyLoop]
    repeat' split
    all_goals first
      | exact perform_pres _ _ _
      | exact ih s

theorem subKeyLoop_no_click (inp : TickInput) (ks : List Key) :
    ∀ s : AppState, ((subKeyLoop s inp ks).2.any isClick) = false := by
  induction ks with
  | nil => intro s; rfl
  | cons k rest ih =>
    intro s
    simp only [subKeyLoop]
    repeat' split
    all_goals first
      | exact perform_no_click _ _ _
      | exact ih s

theorem keyPhase_pres (s : AppState) (inp : TickInput) :
    (keyPhase s inp).1.is_hiding_to_perform_click = s.is_hiding_to_perform_click ∧
    (keyPhase s inp).1.hide_initiated_at = s.hide_initiated_at := by
  unfold keyPhase
  split
  · exact foldl_mainKeyStep_pres _ s
  · exact subKeyLoop_pres _ _ s

theorem keyPhase_no_click (s : AppState) (inp : TickInput) :
    ((keyPhase s inp).2.any isClick) = false := by
  unfold keyPhase
  split
  · rfl
  · exact subKeyLoop_no_click _ _ s

theorem layoutPhase_pres (s : AppState) (inp : TickInput) :
    (layoutPhase s inp).is_hiding_to_perform_click = s.is_hiding_to_perform_click ∧
    (layoutPhase s inp).hide_initiated_at = s.hide_initiated_at := by
  simp only [layoutPhase]
  repeat' split
  all_goals exact ⟨rfl, rfl⟩

theorem clickPhase_click_conditions (s : AppState) (inp : TickInput)
    (h : ((clickPhase s inp).2.any isClick) = true) :
    s.is_hiding_to_perform_click = true ∧
    s.pending_click_pos_after_hide.isSome = true ∧
    ∃ t, s.hide_initiated_at = some t ∧ t + 150 ≤ inp.now := by
  simp only [clickPhase] at h
  split at h
  next h1 =>
    split at h
    next t heq =>
      split at h
      next h3 =>
        split at h
        next p hp => exact ⟨h1, by rw [hp]; rfl, t, heq, h3⟩
        next hp => simp at h
      next h3 => simp at h
    next heq => simp at h
  next h1 => simp at h

theorem clickPhase_no_click_of_no_pending (s : AppState) (inp : TickInput)
    (hp : s.pending_click_pos_after_hide = none) :
    ((clickPhase s inp).2.any isClick) = false := by
  simp only [clickPhase, hp]
  repeat' split
  all_goals rfl

theorem clearStalePhase_pending_none (s : AppState)
    (hp : s.pending_click_pos_after_hide = none) :
    (clearStalePhase s).pending_click_pos_after_hide = none := by
  unfold clearStalePhase
  split
  · rfl
  · exact hp

end Mouseless

namespace Mouseless

theorem clearStalePhase_cases (s : AppState) :
    clearStalePhase s = s ∨
    (clearStalePhase s).is_hiding_to_perform_click = false := by
  simp only [clearStalePhase]
  split
  · right; rfl
  · left; rfl

/-- C1 (amended): a tick of `MouselessApp::update` posts a synthetic click half
only when the deferred-click wait is active at the start of the tick: the
`is_hiding_to_perform_click` flag is set, a click target is pending, and at
least 150 ms have elapsed since the recorded hide initiation. (The original
claim also required the shared visibility flag to be false at posting time;
`C1_counterexample` shows a consumed `ShowGrid` signal can make it true.) -/
theorem C1_click_conditions (s : AppState) (inp : TickInput)
    (h : ((update s inp).2.any isClick) = true) :
    s.is_hiding_to_perform_click = true ∧
    s.pending_click_pos_after_hide.isSome = true ∧
    ∃ t, s.hide_initiated_at = some t ∧ t + 150 ≤ inp.now := by
  simp only [update] at h
  split at h
  next hb => simp at h
  next hb =>
    have hout : ((clickPhase (clearStalePhase (recvPhase
        { s with hide_requested := s.hide_requested || inp.ext_hide } inp.recv)) inp).2.any
          isClick) = true := by
      split at h
      next hv => exact h
      next hv =>
        rw [List.any_append, keyPhase_no_click, Bool.or_false] at h
        exact h
    set s2 := recvPhase { s with hide_requested := s.hide_requested || inp.ext_hide } inp.recv
      with hs2
    have hc := clickPhase_click_conditions (clearStalePhase s2) inp hout
    rcases clearStalePhase_cases s2 with hcs | hcs
    · rw [hcs] at hc
      obtain ⟨p1, p2, p3⟩ :=
        recvPhase_preserves { s with hide_requested := s.hide_requested || inp.ext_hide } inp.recv
      rw [← hs2] at p1 p2 p3
      rw [p1, p3, p2] at hc
      exact hc
    · rw [hcs] at hc
      simp at hc

theorem no_click_of_no_pending (s : AppState) (inp : TickInput)
    (hp : s.pending_click_pos_after_hide = none) :
    ((update s inp).2.any isClick) = false := by
  simp only [update]
  split
  next hb => rfl
  next hb =>
    have hp3 : (clearStalePhase (recvPhase
        { s with hide_requested := s.hide_requested || inp.ext_hide }
          inp.recv)).pending_click_pos_after_hide = none := by
      apply clearStalePhase_pending_none
      rw [(recvPhase_preserves _ _).2.2]
      exact hp
    split
    next hv => exact clickPhase_no_click_of_no_pending _ inp hp3
    next hv =>
      rw [List.any_append, keyPhase_no_click, Bool.or_false]
      exact clickPhase_no_click_of_no_pending _ inp hp3

theorem clickPhase_pres_inv (s : AppState) (inp : TickInput)
    (h : s.is_hiding_to_perform_click = true → s.hide_initiated_at.isSome = true) :
    (clickPhase s inp).1.is_hiding_to_perform_click = true →
      (clickPhase s inp).1.hide_initiated_at.isSome = true := by
  simp only [clickPhase]
  split
  next h1 =>
    split
    next t heq =>
      split
      next h3 => intro hh; simp at hh
      next h3 => intro _; rw [heq]; rfl
    next heq => intro hh; simp at hh
  next h1 => exact h

theorem update_pres_hiding_initiated (s : AppState) (inp : TickInput)
    (h : s.is_hiding_to_perform_click = true → s.hide_initiated_at.isSome = true) :
    (update s inp).1.is_hiding_to_perform_click = true →
      (update s inp).1.hide_initiated_at.isSome = true := by
  have hrecv :=
    recvPhase_preserves { s with hide_requested := s.hide_requested || inp.ext_hide } inp.recv
  have hinv3 : (clearStalePhase (recvPhase
      { s with hide_requested := s.hide_requested || inp.ext_hide }
        inp.recv)).is_hiding_to_perform_click = true →
      (clearStalePhase (recvPhase
      { s with hide_requested := s.hide_requested || inp.ext_hide }
        inp.recv)).hide_initiated_at.isSome = true := by
    simp only [clearStalePhase]
    split
    · intro hh; simp at hh
    · intro hh
      rw [hrecv.1] at hh
      rw [hrecv.2.1]
      exact h hh
  simp only [update]
  split
  next hb =>
    intro hh
    simp only [hideBranch] at hh ⊢
    simp only [hh]
    rfl
  next hb =>
    split
    next hv => exact clickPhase_pres_inv _ inp hinv3
    next hv =>
      intro hh
      obtain ⟨k1, k2⟩ := keyPhase_pres (layoutPhase (clickPhase (clearStalePhase (recvPhase
        { s with hide_requested := s.hide_requested || inp.ext_hide } inp.recv)) inp).1 inp) inp
      obtain ⟨l1, l2⟩ := layoutPhase_pres (clickPhase (clearStalePhase (recvPhase
        { s with hide_requested := s.hide_requested || inp.ext_hide } inp.recv)) inp).1 inp
      rw [k1, l1] at hh
      rw [k2, l2]
      exact clickPhase_pres_inv _ inp hinv3 hh

theorem reachable_hiding_initiated (s : AppState) (hs : Reachable s) :
    s.is_hiding_to_perform_click = true → s.hide_initiated_at.isSome = true := by
  induction hs with
  | init sz => intro hh; simp [initialState] at hh
  | step s inp _ ih => exact update_pres_hiding_initiated s inp ih

end Mouseless

namespace Mouseless

/-! ### Label-table facts for the configured 12×12 main grid -/

theorem mainLabels144_eq_table : mainLabels144 = labelTable := by decide

theorem option_eq_some_getD {α : Type} (o : Option α) (d : α)
    (h : o.isSome = true) : o = some (o.getD d) := by
  cases o with
  | none => simp at h
  | some v => rfl

theorem labelTable_find : ∀ k, k < 144 →
    (labelTable.findIdx? (· == labelTable.getD k [])).isSome = true ∧
    (labelTable.findIdx? (· == labelTable.getD k [])).getD 144 ≤ k ∧
    (labelTable.findIdx? (· == labelTable.getD k [])).getD 144 < 144 ∧
    labelTable.getD ((labelTable.findIdx? (· == labelTable.getD k [])).getD 144) []
      = labelTable.getD k [] := by decide

theorem labelTable_keys : ∀ k, k < 144 →
    (labelTable.getD k []).length = 2 ∧
    key_to_char (keyOfChar ((labelTable.getD k []).getD 0 'A'))
      = some ((labelTable.getD k []).getD 0 'A') ∧
    key_to_char (keyOfChar ((labelTable.getD k []).getD 1 'A'))
      = some ((labelTable.getD k []).getD 1 'A') := by decide

/-! ### Button lemmas for the deferred click -/

theorem buttonsOf_append (l1 l2 : List OutEvent) :
    buttonsOf (l1 ++ l2) = buttonsOf l1 ++ buttonsOf l2 := by
  induction l1 with
  | nil => rfl
  | cons e l1 ih => cases e <;> simp [buttonsOf, ih]

theorem perform_buttons (s : AppState) (inp : TickInput) (p : Pos) :
    buttonsOf (perform_mouse_click s inp p).2 = [] := by
  simp only [perform_mouse_click]
  repeat' split
  all_goals rfl

theorem subKeyLoop_buttons (inp : TickInput) (ks : List Key) :
    ∀ s : AppState, buttonsOf (subKeyLoop s inp ks).2 = [] := by
  induction ks with
  | nil => intro s; rfl
  | cons k rest ih =>
    intro s
    simp only [subKeyLoop]
    repeat' split
    all_goals first
      | exact perform_buttons _ _ _
      | exact ih s

theorem keyPhase_buttons (s : AppState) (inp : TickInput) :
    buttonsOf (keyPhase s inp).2 = [] := by
  unfold keyPhase
  split
  · rfl
  · exact subKeyLoop_buttons _ _ s

theorem clickPhase_buttons (s : AppState) (inp : TickInput) :
    ((buttonsOf (clickPhase s inp).2).all
      (fun b => b == (if inp.lshift then MouseButton.right else MouseButton.left))) = true := by
  simp only [clickPhase]
  repeat' split
  all_goals simp [buttonsOf]

/-- C6 (amended): every synthetic click half posted by a tick uses the button
selected from the `lshift_key_is_pressed` atomic as sampled at the moment of
synthesis (held selects right, not held selects left) — the button is a
snapshot taken at synthesis time, not at scheduling time.
(`C6_counterexample` shows two executions agreeing at scheduling time but
differing afterwards post different buttons, refuting the original claim.) -/
theorem C6_button_at_synthesis (s : AppState) (inp : TickInput) :
    ((buttonsOf (update s inp).2).all
      (fun b => b == (if inp.lshift then MouseButton.right else MouseButton.left))) = true := by
  simp only [update]
  split
  next hb => rfl
  next hb =>
    split
    next hv => exact clickPhase_buttons _ inp
    next hv =>
      rw [buttonsOf_append, keyPhase_buttons, List.append_nil]
      exact clickPhase_buttons _ inp

end Mouseless

namespace Mouseless

/-! ### Reduction of `update` in the main-grid input context -/

theorem update_mainReady (s : AppState) (inp : TickInput) (h : mainReadyState s inp) :
    update s inp =
      (inp.key_events.foldl mainKeyStep { s with hide_requested := false }, []) := by
  obtain ⟨hdm, hbuf, hvis, hhr, hnh, hrecv, hext, hx, hy, hlab, hrects, hlast⟩ := h
  obtain ⟨dm, buf, sel, mgl, mgr, sgl, sgr, llsr, vis, hrq, ihc, hia, pend⟩ := s
  obtain ⟨now, recv, ext, ssz, orect, mok, sok, dok, uok, lsh, ks⟩ := inp
  simp only at hdm hbuf hvis hhr hnh hrecv hext hlab hrects hlast hx hy
  subst hdm hbuf hvis hhr hnh hrecv hext hlab hrects hlast
  have hlen := gridCellRects_length (⟨0, 0, ssz.x, ssz.y⟩ : Rect)
    MAIN_GRID_COLS MAIN_GRID_ROWS hx hy
  have hne : (gridCellRects (⟨0, 0, ssz.x, ssz.y⟩ : Rect)
      MAIN_GRID_COLS MAIN_GRID_ROWS).isEmpty = false := by
    cases hL : gridCellRects (⟨0, 0, ssz.x, ssz.y⟩ : Rect)
        MAIN_GRID_COLS MAIN_GRID_ROWS with
    | nil => rw [hL] at hlen; simp [MAIN_GRID_ROWS, MAIN_GRID_COLS] at hlen
    | cons a l => rfl
  simp [update, recvPhase, clearStalePhase, clickPhase, layoutPhase, keyPhase, hne]

end Mouseless

namespace Mouseless

theorem mainKeyStep_first (s : AppState) (c : Char) (k : Key)
    (hk : key_to_char k = some c) (hbuf : s.key_input_buffer = []) :
    mainKeyStep s k = { s with key_input_buffer := [c] } := by
  simp [mainKeyStep, hk, hbuf]

theorem mainKeyStep_match (s : AppState) (c1 c2 : Char) (k : Key) (j : ℕ)
    (hk : key_to_char k = some c2) (hbuf : s.key_input_buffer = [c1])
    (hfind : s.main_grid_labels.findIdx? (· == [c1, c2]) = some j)
    (hlt : j < s.main_grid_rects.length) :
    mainKeyStep s k =
      { s with selected_main_cell_index := some j, display_mode := .SubGrid,
               key_input_buffer := [],
               sub_grid_labels := (generate_sub_grid_layout
                 (s.main_grid_rects.getD j ⟨0, 0, 0, 0⟩) SUB_GRID_COLS SUB_GRID_ROWS).1,
               sub_grid_rects := (generate_sub_grid_layout
                 (s.main_grid_rects.getD j ⟨0, 0, 0, 0⟩) SUB_GRID_COLS SUB_GRID_ROWS).2 } := by
  simp [mainKeyStep, hk, hbuf, hfind, hlt]

theorem mainKeyStep_nomatch (s : AppState) (c1 c2 : Char) (k : Key)
    (hk : key_to_char k = some c2) (hbuf : s.key_input_buffer = [c1])
    (hfind : s.main_grid_labels.findIdx? (· == [c1, c2]) = none) :
    mainKeyStep s k = { s with key_input_buffer := [] } := by
  simp [mainKeyStep, hk, hbuf, hfind]

theorem list_eq_pair_of_length_two {α : Type} (l : List α) (d : α)
    (h : l.length = 2) : l = [l.getD 0 d, l.getD 1 d] := by
  match l, h with
  | [a, b], _ => rfl

end Mouseless

namespace Mouseless

/-- C5 (amended): in the main-grid state with a computed 12×12 layout, typing
the two characters of cell `k`'s label enters sub-grid mode with the selected
index equal to the FIRST index whose label matches (`firstMatchIdx k ≤ k`, with
the same label text), the buffer cleared and the sub grid computed over the
selected cell's rectangle; typing any two letters that are not a cell label
leaves the main-grid mode with the buffer cleared. (The original claim said the
selected index is `k` itself; `C5_counterexample` refutes that for `k = 104`,
whose label `AE` duplicates cell 6's.) -/
theorem C5_label_selection (s : AppState) (inp : TickInput) (h : mainReadyState s inp) :
    (∀ k, k < 144 → inp.key_events = labelKeys k →
      (update s inp).1.display_mode = DisplayMode.SubGrid ∧
      (update s inp).1.key_input_buffer = [] ∧
      (update s inp).1.selected_main_cell_index = some (firstMatchIdx k) ∧
      firstMatchIdx k ≤ k ∧
      mainLabels144.getD (firstMatchIdx k) [] = mainLabels144.getD k [] ∧
      (update s inp).1.sub_grid_labels = (generate_sub_grid_layout
        (s.main_grid_rects.getD (firstMatchIdx k) ⟨0, 0, 0, 0⟩)
        SUB_GRID_COLS SUB_GRID_ROWS).1 ∧
      (update s inp).1.sub_grid_rects = (generate_sub_grid_layout
        (s.main_grid_rects.getD (firstMatchIdx k) ⟨0, 0, 0, 0⟩)
        SUB_GRID_COLS SUB_GRID_ROWS).2) ∧
    (∀ i1 i2 : Fin 26,
      [Char.ofNat (65 + i1.val), Char.ofNat (65 + i2.val)] ∉ mainLabels144 →
      inp.key_events = [Key.letter i1, Key.letter i2] →
      (update s inp).1.display_mode = DisplayMode.MainGrid ∧
      (update s inp).1.key_input_buffer = []) := by
  have hred := update_mainReady s inp h
  obtain ⟨hdm, hbuf, hvis, hhr, hnh, hrecv, hext, hx, hy, hlab, hrects, hlast⟩ := h
  have hlab' : s.main_grid_labels = labelTable := hlab.trans mainLabels144_eq_table
  have hrlen : s.main_grid_rects.length = 144 := by
    rw [hrects, gridCellRects_length (⟨0, 0, inp.screen_size.x, inp.screen_size.y⟩ : Rect)
      MAIN_GRID_COLS MAIN_GRID_ROWS hx hy]
    rfl
  constructor
  · intro k hk hkeys
    obtain ⟨hfs, hle, hlt144, hlbl⟩ := labelTable_find k hk
    obtain ⟨hlen2, hkey0, hkey1⟩ := labelTable_keys k hk
    have hfm : firstMatchIdx k
        = (labelTable.findIdx? (· == labelTable.getD k [])).getD 144 := by
      unfold firstMatchIdx
      simp only [mainLabels144_eq_table]
    have hLeq : labelTable.getD k []
        = [(labelTable.getD k []).getD 0 'A', (labelTable.getD k []).getD 1 'A'] :=
      list_eq_pair_of_length_two _ 'A' hlen2
    have hkeys' : inp.key_events
        = [keyOfChar ((labelTable.getD k []).getD 0 'A'),
           keyOfChar ((labelTable.getD k []).getD 1 'A')] := by
      rw [hkeys]
      unfold labelKeys
      rw [mainLabels144_eq_table]
      conv_lhs => rw [hLeq]
      rfl
    have hfind' : s.main_grid_labels.findIdx?
        (· == [(labelTable.getD k []).getD 0 'A', (labelTable.getD k []).getD 1 'A'])
        = some (firstMatchIdx k) := by
      simp only [← hLeq]
      rw [hlab', hfm]
      exact option_eq_some_getD _ 144 hfs
    have hlt' : firstMatchIdx k < s.main_grid_rects.length := by
      rw [hrlen, hfm]
      exact hlt144
    rw [hred, hkeys', List.foldl_cons, List.foldl_cons, List.foldl_nil,
        mainKeyStep_first { s with hide_requested := false }
          ((labelTable.getD k []).getD 0 'A') _ hkey0 hbuf,
        mainKeyStep_match
          { s with hide_requested := false,
                   key_input_buffer := [(labelTable.getD k []).getD 0 'A'] }
          ((labelTable.getD k []).getD 0 'A') ((labelTable.getD k []).getD 1 'A') _
          (firstMatchIdx k) hkey1 rfl hfind' hlt']
    refine ⟨rfl, rfl, rfl, ?_, ?_, rfl, rfl⟩
    · rw [hfm]; exact hle
    · rw [mainLabels144_eq_table, hfm]; exact hlbl
  · intro i1 i2 hnotin hkeys
    have hc1 : key_to_char (Key.letter i1) = some (Char.ofNat (65 + i1.val)) := rfl
    have hc2 : key_to_char (Key.letter i2) = some (Char.ofNat (65 + i2.val)) := rfl
    have hfind0 : s.main_grid_labels.findIdx?
        (· == [Char.ofNat (65 + i1.val), Char.ofNat (65 + i2.val)]) = none := by
      rw [hlab]
      rw [List.findIdx?_eq_none_iff]
      intro x hx
      simp only [beq_eq_false_iff_ne, ne_eq]
      intro hx'
      rw [hx'] at hx
      exact hnotin hx
    rw [hred, hkeys, List.foldl_cons, List.foldl_cons, List.foldl_nil,
        mainKeyStep_first { s with hide_requested := false }
          (Char.ofNat (65 + i1.val)) _ hc1 hbuf,
        mainKeyStep_nomatch
          { s with hide_requested := false,
                   key_input_buffer := [Char.ofNat (65 + i1.val)] }
          (Char.ofNat (65 + i1.val)) (Char.ofNat (65 + i2.val)) _ hc2 rfl hfind0]
    exact ⟨hdm, rfl⟩

end Mouseless

namespace Mouseless

/-! ### Gesture-detector lemmas -/

/-- C2: with no press pending, a right-Command press edge followed by its
release edge separated by less than the 200 ms tap threshold while the shared
visibility flag is false emits exactly one `ShowGrid` signal (on the release);
a pair separated by at least the threshold emits none; and a pair occurring
while the visibility flag is true emits none. -/
theorem C2_tap_gesture (s : DetState) (t0 t1 : ℕ) (cp0 cp1 : Option Pos)
    (sh0 sh1 : Bool) (hpend : s.rcmd_press_time = none) :
    (s.app_is_visible = false →
      t1 - t0 < RCMD_TAP_DURATION_MS →
      (tapCallback s t0 cp0 (.flagsChanged RIGHT_COMMAND_KEY_CODE true sh0)).2.sent = [] ∧
      (tapCallback (tapCallback s t0 cp0 (.flagsChanged RIGHT_COMMAND_KEY_CODE true sh0)).1
          t1 cp1 (.flagsChanged RIGHT_COMMAND_KEY_CODE false sh1)).2.sent
        = [GlobalEvent.ShowGrid cp1]) ∧
    (RCMD_TAP_DURATION_MS ≤ t1 - t0 →
      (tapCallback s t0 cp0 (.flagsChanged RIGHT_COMMAND_KEY_CODE true sh0)).2.sent = [] ∧
      (tapCallback (tapCallback s t0 cp0 (.flagsChanged RIGHT_COMMAND_KEY_CODE true sh0)).1
          t1 cp1 (.flagsChanged RIGHT_COMMAND_KEY_CODE false sh1)).2.sent = []) ∧
    (s.app_is_visible = true →
      (tapCallback s t0 cp0 (.flagsChanged RIGHT_COMMAND_KEY_CODE true sh0)).2.sent = [] ∧
      (tapCallback (tapCallback s t0 cp0 (.flagsChanged RIGHT_COMMAND_KEY_CODE true sh0)).1
          t1 cp1 (.flagsChanged RIGHT_COMMAND_KEY_CODE false sh1)).2.sent = []) := by
  refine ⟨?_, ?_, ?_⟩
  · intro hvis hfast
    constructor
    · simp [tapCallback, isEscapeKeyDown, hpend]
    · simp [tapCallback, isEscapeKeyDown, hpend, hvis, hfast]
  · intro hslow
    constructor
    · simp [tapCallback, isEscapeKeyDown, hpend]
    · simp [tapCallback, isEscapeKeyDown, hpend, Nat.not_lt.mpr hslow]
  · intro hvis
    constructor
    · simp [tapCallback, isEscapeKeyDown, hpend]
    · simp [tapCallback, isEscapeKeyDown, hpend, hvis]

/-- C7 (amended): while a right-Command press is pending, a key-down of a
modifier key does not cancel it, and a key-down of a non-modifier key (except
an Escape swallowed while visible) cancels it; but a flags-changed event for
ANY key code other than the monitored hotkey (54) and the tracked left Shift
(56) cancels the pending press even when that key is itself a modifier.
(`C7_counterexample` shows key code 55, left Command, a modifier, cancelling —
refuting the original claim.) -/
theorem C7_cancellation (s : DetState) (t : ℕ) (now : ℕ) (cp : Option Pos)
    (hpend : s.rcmd_press_time = some t) :
    (∀ kc : ℤ, is_modifier_key_code kc = true →
      (tapCallback s now cp (.keyDown kc)).1.rcmd_press_time = some t) ∧
    (∀ kc : ℤ, is_modifier_key_code kc = false →
      ¬(s.app_is_visible = true ∧ kc = ESCAPE_KEY_CODE) →
      (tapCallback s now cp (.keyDown kc)).1.rcmd_press_time = none) ∧
    (∀ (kc : ℤ) (cf sf : Bool), kc ≠ RIGHT_COMMAND_KEY_CODE → kc ≠ LEFT_SHIFT_KEY_CODE →
      (tapCallback s now cp (.flagsChanged kc cf sf)).1.rcmd_press_time = none) := by
  refine ⟨?_, ?_, ?_⟩
  · intro kc hm
    have h53 : kc ≠ ESCAPE_KEY_CODE := by
      intro hkc; rw [hkc] at hm; exact absurd hm (by decide)
    simp [tapCallback, isEscapeKeyDown, hpend, hm, beq_eq_false_iff_ne.mpr h53]
  · intro kc hm hne
    have h54 : kc ≠ RIGHT_COMMAND_KEY_CODE := by
      intro hkc; rw [hkc] at hm; exact absurd hm (by decide)
    by_cases hk : kc = ESCAPE_KEY_CODE
    · have hv : s.app_is_visible = false := by
        cases hvv : s.app_is_visible
        · rfl
        · exact absurd ⟨hvv, hk⟩ hne
      simp [tapCallback, isEscapeKeyDown, hv, hpend, hm, h54]
    · simp [tapCallback, isEscapeKeyDown, beq_eq_false_iff_ne.mpr hk, hpend, hm, h54]
  · intro kc cf sf h54 h56
    simp [tapCallback, isEscapeKeyDown, hpend, h54, h56]

end Mouseless

namespace Mouseless

/-! ### Claim theorems: counterexamples, remaining amended claims, witnesses -/

/-- C1 counterexample: from the initial state, show → select cell → Space-click
→ hide starts the deferred-click wait; a second `ShowGrid` consumed during the
wait re-sets the visibility flag, and at 200 ms the tick still posts the click
while the shared visibility flag is true — so the original claim's "click only
while the window-hidden flag is false" fails. -/
theorem C1_counterexample :
    (runTrace (initialState ⟨120, 120⟩) [cexI1, cexI2, cexI3, cexI4, cexI5]).is_visible = true ∧
    ((update (runTrace (initialState ⟨120, 120⟩) [cexI1, cexI2, cexI3, cexI4, cexI5])
        cexI6).2.any isClick) = true ∧
    (update (runTrace (initialState ⟨120, 120⟩) [cexI1, cexI2, cexI3, cexI4, cexI5])
        cexI6).1.is_visible = true := by
  decide

/-- Witness for C1: a concrete state in the deferred-click wait at 200 ms posts
a click, and the theorem's conditions hold there. -/
theorem C1_witness :
    ∃ t, ({ initialState ⟨120, 120⟩ with
        is_hiding_to_perform_click := true, hide_initiated_at := some 0,
        pending_click_pos_after_hide := some ⟨1, 1⟩ } : AppState).hide_initiated_at = some t ∧
      t + 150 ≤ ({ baseInput with now := 200 } : TickInput).now :=
  (C1_click_conditions
    { initialState ⟨120, 120⟩ with
        is_hiding_to_perform_click := true, hide_initiated_at := some 0,
        pending_click_pos_after_hide := some ⟨1, 1⟩ }
    { baseInput with now := 200 } (by decide)).2.2

/-- Witness for C2: from a clean hidden detector state, a press at 0 ms and a
release at 100 ms emit exactly the `ShowGrid` signal. -/
theorem C2_witness :
    (tapCallback (tapCallback ⟨none, false, false, false⟩ 0 none
        (.flagsChanged RIGHT_COMMAND_KEY_CODE true false)).1 100 none
        (.flagsChanged RIGHT_COMMAND_KEY_CODE false false)).2.sent
      = [GlobalEvent.ShowGrid none] :=
  ((C2_tap_gesture ⟨none, false, false, false⟩ 0 100 none none false false rfl).1
    rfl (by decide)).2

/-- C3 counterexample: after the hide that starts the deferred-click wait, the
reachable state is `PendingClick` while the shared visibility flag is false —
refuting "the flag is true in every non-Idle state". -/
theorem C3_counterexample :
    navStateOf (runTrace (initialState ⟨120, 120⟩) [cexI1, cexI2, cexI3, cexI4])
      = NavState.PendingClick ∧
    (runTrace (initialState ⟨120, 120⟩) [cexI1, cexI2, cexI3, cexI4]).is_visible = false := by
  decide

/-- C3 (amended): in every reachable state, the shared visibility flag is false
whenever the navigator state is `Idle` and true whenever it is `MainGridActive`
or `SubGridActive`; in `PendingClick` (the deferred-click wait, which the
original claim wrongly counted among the visible states) the state always
carries the hide-initiation timestamp. -/
theorem C3_visibility_invariant (s : AppState) (hs : Reachable s) :
    (navStateOf s = NavState.Idle → s.is_visible = false) ∧
    ((navStateOf s = NavState.MainGridActive ∨ navStateOf s = NavState.SubGridActive) →
      s.is_visible = true) ∧
    (navStateOf s = NavState.PendingClick → s.hide_initiated_at.isSome = true) := by
  refine ⟨?_, ?_, ?_⟩
  · intro h
    cases hic : s.is_hiding_to_perform_click
    · cases hv : s.is_visible
      · rfl
      · cases hd : s.display_mode <;> simp [navStateOf, hic, hv, hd] at h
    · simp [navStateOf, hic] at h
  · intro h
    cases hic : s.is_hiding_to_perform_click
    · cases hv : s.is_visible
      · rcases h with h | h <;> simp [navStateOf, hic, hv] at h
      · rfl
    · rcases h with h | h <;> simp [navStateOf, hic] at h
  · intro h
    cases hic : s.is_hiding_to_perform_click
    · cases hv : s.is_visible
      · simp [navStateOf, hic, hv] at h
      · cases hd : s.display_mode <;> simp [navStateOf, hic, hv, hd] at h
    · exact reachable_hiding_initiated s hs hic

/-- Witness for C3: the invariant instantiated at the initial state. -/
theorem C3_witness :
    (navStateOf (initialState ⟨100, 100⟩) = NavState.Idle →
      (initialState ⟨100, 100⟩).is_visible = false) ∧
    ((navStateOf (initialState ⟨100, 100⟩) = NavState.MainGridActive ∨
        navStateOf (initialState ⟨100, 100⟩) = NavState.SubGridActive) →
      (initialState ⟨100, 100⟩).is_visible = true) ∧
    (navStateOf (initialState ⟨100, 100⟩) = NavState.PendingClick →
      (initialState ⟨100, 100⟩).hide_initiated_at.isSome = true) :=
  C3_visibility_invariant _ (Reachable.init ⟨100, 100⟩)

/-- C4 counterexample: at the configured 12 columns × 12 rows (both within the
26-character alphabets) over a non-degenerate rectangle, the returned labels are
NOT pairwise distinct: indices 6 and 104 both carry `AE`. -/
theorem C4_counterexample :
    MAIN_GRID_ROWS ≤ first_chars.length ∧ MAIN_GRID_COLS ≤ second_chars.length ∧
    ((1 : ℚ) < 120) ∧
    (generate_main_grid_layout MAIN_GRID_COLS MAIN_GRID_ROWS ⟨0, 0, 120, 120⟩).1.length = 144 ∧
    (generate_main_grid_layout MAIN_GRID_COLS MAIN_GRID_ROWS ⟨0, 0, 120, 120⟩).1.getD 6 []
      = (generate_main_grid_layout MAIN_GRID_COLS MAIN_GRID_ROWS ⟨0, 0, 120, 120⟩).1.getD 104 [] ∧
    (6 : ℕ) ≠ 104 := by
  decide

/-- C4 (amended): for every column count `C`, row count `R` and rectangle above
the degeneracy threshold, `generate_main_grid_layout` returns exactly C×R
labels and C×R rects; the labels are pairwise distinct whenever C×R is at most
the alphabet size 26 (for larger grids, such as the configured 12×12, the
index-derived fallback labels can duplicate in-alphabet labels —
`C4_counterexample`). -/
theorem C4_main_grid_layout (C R : ℕ) (rect : Rect)
    (h1 : 1 < rect.w) (h2 : 1 < rect.h) :
    (generate_main_grid_layout C R rect).1.length = R * C ∧
    (generate_main_grid_layout C R rect).2.length = R * C ∧
    (C * R ≤ 26 → (generate_main_grid_layout C R rect).1.Nodup) :=
  ⟨mainGridLabels_length C R, gridCellRects_length rect C R h1 h2,
   fun h => mainGridLabels_nodup C R h⟩

/-- Witness for C4: a 5×5 grid over a 120×120 rectangle has 25 labels, 25 rects
and pairwise-distinct labels. -/
theorem C4_witness :
    (generate_main_grid_layout 5 5 ⟨0, 0, 120, 120⟩).1.length = 25 ∧
    (generate_main_grid_layout 5 5 ⟨0, 0, 120, 120⟩).2.length = 25 ∧
    (generate_main_grid_layout 5 5 ⟨0, 0, 120, 120⟩).1.Nodup := by
  obtain ⟨a, b, c⟩ := C4_main_grid_layout 5 5 ⟨0, 0, 120, 120⟩ (by norm_num) (by norm_num)
  exact ⟨a, b, c (by norm_num)⟩

/-- C5 counterexample: typing `A` `E` — exactly the two characters of cell
104's label — selects cell 6 (the first index labelled `AE`), not cell 104. -/
theorem C5_counterexample :
    labelKeys 104 = [Key.letter 0, Key.letter 4] ∧
    mainLabels144.getD 104 [] = ['A', 'E'] ∧
    (update readyS { baseInput with
        key_events := [Key.letter 0, Key.letter 4] }).1.display_mode = DisplayMode.SubGrid ∧
    (update readyS { baseInput with
        key_events := [Key.letter 0, Key.letter 4] }).1.selected_main_cell_index = some 6 := by
  decide

/-- Witness for C5: typing cell 0's label `AH` in the ready state selects
cell 0 and enters sub-grid mode. -/
theorem C5_witness :
    (update readyS { baseInput with key_events := labelKeys 0 }).1.display_mode
      = DisplayMode.SubGrid ∧
    (update readyS { baseInput with key_events := labelKeys 0 }).1.selected_main_cell_index
      = some (firstMatchIdx 0) := by
  have h := ((C5_label_selection readyS { baseInput with key_events := labelKeys 0 }
    ⟨rfl, rfl, rfl, rfl, rfl, rfl, rfl, by decide, by decide, rfl, rfl, rfl⟩).1)
    0 (by norm_num) rfl
  exact ⟨h.1, h.2.2.1⟩

/-- C6 counterexample: two executions share the identical four-tick prefix (the
modifier not held when the click is scheduled at tick 3) and differ only in the
modifier state at the synthesis tick: one posts left-button halves, the other
right-button halves — the button is NOT fixed at scheduling time. -/
theorem C6_counterexample :
    buttonsOf (update (runTrace (initialState ⟨120, 120⟩) [cexI1, cexI2, cexI3, cexI4])
        { baseInput with now := 200 }).2 = [MouseButton.left, MouseButton.left] ∧
    buttonsOf (update (runTrace (initialState ⟨120, 120⟩) [cexI1, cexI2, cexI3, cexI4])
        { baseInput with now := 200, lshift := true }).2
      = [MouseButton.right, MouseButton.right] := by
  decide

/-- C7 counterexample: key code 55 (left Command) is a modifier key other than
the monitored hotkey, yet its flags-changed event cancels a pending press. -/
theorem C7_counterexample :
    is_modifier_key_code 55 = true ∧ (55 : ℤ) ≠ RIGHT_COMMAND_KEY_CODE ∧
    (tapCallback ⟨some 0, false, false, false⟩ 10 none
        (.flagsChanged 55 true false)).1.rcmd_press_time = none := by
  decide

/-- Witness for C7: a key-down of left Shift (56) keeps the pending press, a
key-down of key code 0 cancels it, and a flags-changed of left Command (55)
cancels it. -/
theorem C7_witness :
    (tapCallback ⟨some 5, false, false, false⟩ 10 none
        (.keyDown 56)).1.rcmd_press_time = some 5 ∧
    (tapCallback ⟨some 5, false, false, false⟩ 10 none
        (.keyDown 0)).1.rcmd_press_time = none ∧
    (tapCallback ⟨some 5, false, false, false⟩ 10 none
        (.flagsChanged 55 true false)).1.rcmd_press_time = none := by
  have h := C7_cancellation ⟨some 5, false, false, false⟩ 5 10 none rfl
  exact ⟨h.1 56 (by decide), h.2.1 0 (by decide) (by decide),
         h.2.2 55 true false (by decide) (by decide)⟩

/-- C8: when the pointer move of `perform_mouse_click` fails, the pending click
target is cleared, a hide is requested immediately, no OS event is emitted by
the call, and the following tick posts no synthetic click. -/
theorem C8_move_failure_aborts (s : AppState) (inp : TickInput) (p : Pos) (wr : Rect)
    (houter : inp.outer_rect = some wr) (hmove : inp.move_ok = false) :
    (perform_mouse_click s inp p).1.pending_click_pos_after_hide = none ∧
    (perform_mouse_click s inp p).1.hide_requested = true ∧
    (perform_mouse_click s inp p).2 = [] ∧
    ∀ inp2 : TickInput,
      ((update (perform_mouse_click s inp p).1 inp2).2.any isClick) = false := by
  have hperf : perform_mouse_click s inp p
      = ({ s with hide_requested := true, pending_click_pos_after_hide := none }, []) := by
    simp [perform_mouse_click, houter, hmove]
  rw [hperf]
  refine ⟨rfl, rfl, rfl, ?_⟩
  intro inp2
  exact no_click_of_no_pending _ inp2 rfl

/-- Witness for C8: a failed move in the initial state clears the pending click,
requests a hide, and the next tick posts no click. -/
theorem C8_witness :
    (perform_mouse_click (initialState ⟨120, 120⟩)
        { baseInput with move_ok := false } ⟨5, 5⟩).1.pending_click_pos_after_hide = none ∧
    (perform_mouse_click (initialState ⟨120, 120⟩)
        { baseInput with move_ok := false } ⟨5, 5⟩).1.hide_requested = true ∧
    ((update (perform_mouse_click (initialState ⟨120, 120⟩)
        { baseInput with move_ok := false } ⟨5, 5⟩).1 baseInput).2.any isClick) = false := by
  have h := C8_move_failure_aborts (initialState ⟨120, 120⟩)
    { baseInput with move_ok := false } ⟨5, 5⟩ ⟨0, 0, 120, 120⟩ rfl rfl
  exact ⟨h.1, h.2.1, h.2.2.2 baseInput⟩

/-- C9 counterexample: the configured 12×12 grid exceeds the 26-character
alphabet capacity, yet `generate_main_grid_layout` neither asserts nor fails:
it returns a full 144-label list in which indices 6 and 104 are both `AE`. -/
theorem C9_counterexample :
    26 < MAIN_GRID_COLS * MAIN_GRID_ROWS ∧
    (generate_main_grid_layout MAIN_GRID_COLS MAIN_GRID_ROWS ⟨0, 0, 120, 120⟩).1.length
      = MAIN_GRID_ROWS * MAIN_GRID_COLS ∧
    (generate_main_grid_layout MAIN_GRID_COLS MAIN_GRID_ROWS ⟨0, 0, 120, 120⟩).1.getD 6 []
      = ['A', 'E'] ∧
    (generate_main_grid_layout MAIN_GRID_COLS MAIN_GRID_ROWS ⟨0, 0, 120, 120⟩).1.getD 104 []
      = ['A', 'E'] := by
  decide

/-- C9 (amended): the main-grid layout function never asserts or fails fast: it
is total and returns exactly R×C labels for every configuration, silently
padding over-capacity grids with index-derived fallback labels, which at the
configured 12×12 makes index 6 and index 104 carry the same label. -/
theorem C9_silent_fallback :
    (∀ (C R : ℕ) (rect : Rect), (generate_main_grid_layout C R rect).1.length = R * C) ∧
    (generate_main_grid_layout MAIN_GRID_COLS MAIN_GRID_ROWS ⟨0, 0, 120, 120⟩).1.getD 6 []
      = (generate_main_grid_layout MAIN_GRID_COLS MAIN_GRID_ROWS
          ⟨0, 0, 120, 120⟩).1.getD 104 [] := by
  constructor
  · intro C R rect
    exact mainGridLabels_length C R
  · decide

/-- C10 counterexample: for a 6×5 sub-grid over a non-degenerate rectangle the
function returns 26 labels but 30 rects — the rect list is not truncated to the
alphabet size, so not every returned rect is paired with a label. -/
theorem C10_counterexample :
    26 < 6 * 5 ∧
    (generate_sub_grid_layout ⟨0, 0, 120, 120⟩ 6 5).1.length = 26 ∧
    (generate_sub_grid_layout ⟨0, 0, 120, 120⟩ 6 5).2.length = 30 ∧
    (generate_sub_grid_layout ⟨0, 0, 120, 120⟩ 6 5).2.length
      ≠ (generate_sub_grid_layout ⟨0, 0, 120, 120⟩ 6 5).1.length := by
  decide

/-- C10 (amended): when C×R exceeds the 26-character sub-grid alphabet and the
rectangle is above the degeneracy threshold, `generate_sub_grid_layout`
truncates only the LABEL list to 26 entries while still returning all R×C
rects (the trailing rects are unlabeled). -/
theorem C10_sub_truncation (C R : ℕ) (rect : Rect) (hCR : 26 < C * R)
    (h1 : 1 < rect.w) (h2 : 1 < rect.h) :
    (generate_sub_grid_layout rect C R).1.length = 26 ∧
    (generate_sub_grid_layout rect C R).2.length = R * C := by
  constructor
  · show (subGridLabels C R).length = 26
    rw [subGridLabels_length]
    omega
  · exact gridCellRects_length rect C R h1 h2

/-- Witness for C10: the 6×5 sub-grid over a 120×120 rectangle. -/
theorem C10_witness :
    (generate_sub_grid_layout ⟨0, 0, 120, 120⟩ 6 5).1.length = 26 ∧
    (generate_sub_grid_layout ⟨0, 0, 120, 120⟩ 6 5).2.length = 30 := by
  have h := C10_sub_truncation 6 5 ⟨0, 0, 120, 120⟩ (by norm_num) (by norm_num) (by norm_num)
  exact ⟨h.1, h.2⟩

end Mouseless
